import Mathlib

/-!
Verification of the cognitive-scoring engine of the Kina repository.

The function `calculate_cognitive_score` in `streamlit_app.py` is a pure
computation over the fields of an analysis-result record.  We embed it
shallowly: Python floats become exact rationals (ℚ), decimal literals are
read exactly (266.67 = 26667/100), and the Python builtin `round(x, n)` — which
rounds half to even — is modelled by `roundHalfEven`.
-/

namespace Kina

/-- The Python builtin `round` on a rational scaled to integer position:
nearest integer, ties going to the even integer. -/
def roundHalfEven (x : ℚ) : ℤ :=
  if x - ⌊x⌋ < 1/2 then ⌊x⌋
  else if 1/2 < x - ⌊x⌋ then ⌊x⌋ + 1
  else if ⌊x⌋ % 2 = 0 then ⌊x⌋ else ⌊x⌋ + 1

/-- Python `round(x, 1)`. -/
def round1 (x : ℚ) : ℚ := (roundHalfEven (10 * x) : ℚ) / 10

/-- Python `round(x, 2)`. -/
def round2 (x : ℚ) : ℚ := (roundHalfEven (100 * x) : ℚ) / 100

/-- The input record of `calculate_cognitive_score`: the fields of the
analysis-results dict that the function reads (`duration`,
`sentiment.polarity`, `sentiment.subjectivity`, `lexical.total_words`,
`lexical.unique_words`, `lexical.diversity_score`,
`complexity.avg_sentence_length`, `complexity.conjunction_count`). -/
structure AnalysisResult where
  duration : ℚ
  polarity : ℚ
  subjectivity : ℚ
  total_words : ℕ
  unique_words : ℕ
  diversity_score : ℚ
  avg_sentence_length : ℚ
  conjunction_count : ℕ

/-- The validity assumptions on an `AnalysisResult` stated by the data
model of the spec (the integer fields are ℕ, hence nonnegative by type). -/
def ValidResult (r : AnalysisResult) : Prop :=
  0 ≤ r.duration ∧ -1 ≤ r.polarity ∧ r.polarity ≤ 1 ∧
    0 ≤ r.diversity_score ∧ r.diversity_score ≤ 1 ∧ 0 ≤ r.avg_sentence_length

instance (r : AnalysisResult) : Decidable (ValidResult r) := by
  unfold ValidResult; infer_instance

/-- The output record of `calculate_cognitive_score` (the returned dict,
with `component_scores` flattened into its four entries). -/
structure CognitiveScore where
  overall_score : ℚ
  cognitive_age : ℚ
  risk_level : String
  risk_color : String
  risk_description : String
  lexical_diversity : ℚ
  speech_fluency : ℚ
  sentence_complexity : ℚ
  emotional_expression : ℚ
  recommendations : List String
  words_per_second : ℚ

/-- Lexical-diversity component (streamlit_app.py lines 161-168). -/
def diversity_component (diversity_score : ℚ) : ℚ :=
  if diversity_score ≥ 0.75 then 100
  else if diversity_score ≥ 0.6 then 60 + (diversity_score - 0.6) * 266.67
  else if diversity_score ≥ 0.4 then 30 + (diversity_score - 0.4) * 150
  else max 0 (diversity_score * 75)

/-- `words_per_second = total_words / duration if duration > 0 else 0`
(streamlit_app.py line 172). -/
def words_per_second (total_words duration : ℚ) : ℚ :=
  if duration > 0 then total_words / duration else 0

/-- Speech-fluency component (streamlit_app.py lines 173-182). -/
def fluency_component (w : ℚ) : ℚ :=
  if 2.0 ≤ w ∧ w ≤ 3.0 then 100
  else if (1.5 ≤ w ∧ w < 2.0) ∨ (3.0 < w ∧ w ≤ 3.5) then 80
  else if (1.0 ≤ w ∧ w < 1.5) ∨ (3.5 < w ∧ w ≤ 4.0) then 60
  else if (0.5 ≤ w ∧ w < 1.0) ∨ (4.0 < w ∧ w ≤ 5.0) then 40
  else 20

/-- Sentence-complexity component (streamlit_app.py lines 186-195). -/
def complexity_component (avg_sentence_length : ℚ) (conjunction_count : ℕ) : ℚ :=
  if (12 ≤ avg_sentence_length ∧ avg_sentence_length ≤ 20) ∧ 1 ≤ conjunction_count then 100
  else if (8 ≤ avg_sentence_length ∧ avg_sentence_length < 12) ∨
      (20 < avg_sentence_length ∧ avg_sentence_length ≤ 25) then 80
  else if (6 ≤ avg_sentence_length ∧ avg_sentence_length < 8) ∨
      (25 < avg_sentence_length ∧ avg_sentence_length ≤ 30) then 60
  else if (4 ≤ avg_sentence_length ∧ avg_sentence_length < 6) ∨
      30 < avg_sentence_length then 40
  else 20

/-- Emotional-expression component (streamlit_app.py lines 199-206). -/
def emotion_component (polarity : ℚ) : ℚ :=
  if -0.1 ≤ polarity ∧ polarity ≤ 0.3 then 100
  else if (-0.3 ≤ polarity ∧ polarity < -0.1) ∨ (0.3 < polarity ∧ polarity ≤ 0.5) then 80
  else if (-0.5 ≤ polarity ∧ polarity < -0.3) ∨ (0.5 < polarity ∧ polarity ≤ 0.7) then 60
  else 40

/-- The weighted overall score before the final 1-decimal rounding
(streamlit_app.py lines 209-214). -/
def raw_overall (r : AnalysisResult) : ℚ :=
  diversity_component r.diversity_score * 0.30 +
    fluency_component (words_per_second (r.total_words : ℚ) r.duration) * 0.25 +
    complexity_component r.avg_sentence_length r.conjunction_count * 0.25 +
    emotion_component r.polarity * 0.20

/-- `calculate_cognitive_score` (streamlit_app.py lines 141-279). -/
def calculate_cognitive_score (results : AnalysisResult) : CognitiveScore :=
  let dc := diversity_component results.diversity_score
  let wps := words_per_second (results.total_words : ℚ) results.duration
  let fc := fluency_component wps
  let cc := complexity_component results.avg_sentence_length results.conjunction_count
  let ec := emotion_component results.polarity
  let overall_score := dc * 0.30 + fc * 0.25 + cc * 0.25 + ec * 0.20
  let risk_level := if overall_score ≥ 80 then "Low Risk"
    else if overall_score ≥ 65 then "Low-Moderate Risk"
    else if overall_score ≥ 50 then "Moderate Risk"
    else "Higher Risk"
  let risk_color := if overall_score ≥ 80 then "🟢"
    else if overall_score ≥ 65 then "🟡"
    else if overall_score ≥ 50 then "🟠"
    else "🔴"
  let risk_description := if overall_score ≥ 80 then "Excellent cognitive health indicators"
    else if overall_score ≥ 65 then "Good cognitive health with minor areas for attention"
    else if overall_score ≥ 50 then "Some cognitive health concerns detected"
    else "Multiple cognitive health indicators suggest consultation recommended"
  let score_deviation := 85 - overall_score
  let age_adjustment := score_deviation * 0.3
  let baseline_age : ℚ := 35
  let estimated_cognitive_age := max 20 (baseline_age + age_adjustment)
  let recs : List String :=
    (if dc < 70 then ["📚 Expand vocabulary through reading diverse materials"] else []) ++
    (if fc < 70 then
      [if wps < 1.5 then "🗣️ Practice speaking exercises to improve fluency"
       else "⏸️ Practice paced speaking to improve clarity"] else []) ++
    (if cc < 70 then ["🧠 Practice using varied sentence structures and connecting words"] else []) ++
    (if ec < 70 then ["😊 Consider activities that promote emotional well-being"] else [])
  let recommendations := if recs = [] then
      ["🎉 Excellent results! Continue maintaining cognitive health through regular mental activities"]
    else recs
  { overall_score := round1 overall_score
    cognitive_age := round1 estimated_cognitive_age
    risk_level := risk_level
    risk_color := risk_color
    risk_description := risk_description
    lexical_diversity := round1 dc
    speech_fluency := round1 fc
    sentence_complexity := round1 cc
    emotional_expression := round1 ec
    recommendations := recommendations
    words_per_second := round2 wps }

/-! ### Helper lemmas about the rounding model -/

theorem le_roundHalfEven (x : ℚ) : x - 1/2 ≤ (roundHalfEven x : ℚ) := by
  unfold roundHalfEven
  have h1 := Int.floor_le x
  have h2 := Int.lt_floor_add_one x
  split_ifs with ha hb hc <;> push_cast <;> linarith

theorem roundHalfEven_le (x : ℚ) : (roundHalfEven x : ℚ) ≤ x + 1/2 := by
  unfold roundHalfEven
  have h1 := Int.floor_le x
  have h2 := Int.lt_floor_add_one x
  split_ifs with ha hb hc <;> push_cast <;> linarith

theorem roundHalfEven_eq_of_lt {x : ℚ} {z : ℤ} (h1 : (z : ℚ) ≤ x) (h2 : x < z + 1/2) :
    roundHalfEven x = z := by
  have hf : ⌊x⌋ = z := by
    rw [Int.floor_eq_iff]
    constructor
    · exact h1
    · push_cast; linarith
  unfold roundHalfEven
  rw [hf]
  rw [if_pos (by linarith)]

theorem roundHalfEven_eq_of_gt {x : ℚ} {z : ℤ} (h1 : (z : ℚ) + 1/2 < x) (h2 : x < z + 1) :
    roundHalfEven x = z + 1 := by
  have hf : ⌊x⌋ = z := by
    rw [Int.floor_eq_iff]
    constructor
    · linarith
    · push_cast; linarith
  unfold roundHalfEven
  rw [hf]
  rw [if_neg (by linarith), if_pos (by linarith)]

theorem le_round1 (x : ℚ) : x - 1/20 ≤ round1 x := by
  unfold round1
  have := le_roundHalfEven (10 * x)
  linarith

theorem round1_le (x : ℚ) : round1 x ≤ x + 1/20 := by
  unfold round1
  have := roundHalfEven_le (10 * x)
  linarith

/-! ### Ranges of the four component scores -/

theorem diversity_component_nonneg (d : ℚ) : 0 ≤ diversity_component d := by
  unfold diversity_component
  split_ifs with h1 h2 h3 <;> [norm_num; nlinarith; nlinarith; exact le_max_left 0 _]

theorem diversity_component_lt (d : ℚ) : diversity_component d < 200001/2000 := by
  unfold diversity_component
  split_ifs with h1 h2 h3
  · norm_num
  · push_neg at h1; nlinarith
  · push_neg at h1 h2; nlinarith
  · push_neg at h1 h2 h3
    rw [max_lt_iff]
    constructor <;> nlinarith

theorem fluency_component_mem (w : ℚ) :
    fluency_component w = 20 ∨ fluency_component w = 40 ∨ fluency_component w = 60 ∨
      fluency_component w = 80 ∨ fluency_component w = 100 := by
  unfold fluency_component
  split_ifs <;> norm_num

theorem fluency_component_range (w : ℚ) :
    20 ≤ fluency_component w ∧ fluency_component w ≤ 100 := by
  rcases fluency_component_mem w with h | h | h | h | h <;> rw [h] <;> norm_num

theorem complexity_component_mem (a : ℚ) (c : ℕ) :
    complexity_component a c = 20 ∨ complexity_component a c = 40 ∨
      complexity_component a c = 60 ∨ complexity_component a c = 80 ∨
      complexity_component a c = 100 := by
  unfold complexity_component
  split_ifs <;> norm_num

theorem complexity_component_range (a : ℚ) (c : ℕ) :
    20 ≤ complexity_component a c ∧ complexity_component a c ≤ 100 := by
  rcases complexity_component_mem a c with h | h | h | h | h <;> rw [h] <;> norm_num

theorem emotion_component_mem (p : ℚ) :
    emotion_component p = 40 ∨ emotion_component p = 60 ∨ emotion_component p = 80 ∨
      emotion_component p = 100 := by
  unfold emotion_component
  split_ifs <;> norm_num

theorem emotion_component_range (p : ℚ) :
    40 ≤ emotion_component p ∧ emotion_component p ≤ 100 := by
  rcases emotion_component_mem p with h | h | h | h <;> rw [h] <;> norm_num

/-- The weighted sum is at least 18 and strictly below 100.00015, for every
input record whatsoever. -/
theorem raw_overall_bounds (r : AnalysisResult) :
    18 ≤ raw_overall r ∧ raw_overall r < 2000003/20000 := by
  unfold raw_overall
  have hd0 := diversity_component_nonneg r.diversity_score
  have hd1 := diversity_component_lt r.diversity_score
  have hf := fluency_component_range (words_per_second (r.total_words : ℚ) r.duration)
  have hc := complexity_component_range r.avg_sentence_length r.conjunction_count
  have he := emotion_component_range r.polarity
  constructor <;> nlinarith [hf.1, hf.2, hc.1, hc.2, he.1, he.2]

theorem round1_le_int {x : ℚ} {n : ℤ} (h : x < (n : ℚ) + 1/20) : round1 x ≤ (n : ℚ) := by
  unfold round1
  have h2 : (roundHalfEven (10 * x) : ℚ) ≤ 10 * x + 1/2 := roundHalfEven_le _
  have h3 : (roundHalfEven (10 * x) : ℚ) < 10 * n + 1 := by push_cast; linarith
  have h4 : roundHalfEven (10 * x) < 10 * n + 1 := by exact_mod_cast h3
  have h5 : roundHalfEven (10 * x) ≤ 10 * n := by omega
  have h6 : (roundHalfEven (10 * x) : ℚ) ≤ 10 * n := by exact_mod_cast h5
  push_cast at h6
  linarith

theorem le_round1_int {x : ℚ} {n : ℤ} (h : (n : ℚ) - 1/20 < x) : (n : ℚ) ≤ round1 x := by
  unfold round1
  have h2 : 10 * x - 1/2 ≤ (roundHalfEven (10 * x) : ℚ) := le_roundHalfEven _
  have h3 : (10 * n - 1 : ℚ) < (roundHalfEven (10 * x) : ℚ) := by push_cast; linarith
  have h4 : 10 * n - 1 < roundHalfEven (10 * x) := by exact_mod_cast h3
  have h5 : 10 * n ≤ roundHalfEven (10 * x) := by omega
  have h6 : (10 * n : ℚ) ≤ (roundHalfEven (10 * x) : ℚ) := by exact_mod_cast h5
  push_cast at h6
  linarith

/-! ### Projections of `calculate_cognitive_score` -/

theorem calc_overall_eq (r : AnalysisResult) :
    (calculate_cognitive_score r).overall_score = round1 (raw_overall r) := rfl

theorem calc_age_eq (r : AnalysisResult) :
    (calculate_cognitive_score r).cognitive_age =
      round1 (max 20 (35 + (85 - raw_overall r) * 0.3)) := rfl

theorem calc_components_eq (r : AnalysisResult) :
    (calculate_cognitive_score r).lexical_diversity =
        round1 (diversity_component r.diversity_score) ∧
      (calculate_cognitive_score r).speech_fluency =
        round1 (fluency_component (words_per_second (r.total_words : ℚ) r.duration)) ∧
      (calculate_cognitive_score r).sentence_complexity =
        round1 (complexity_component r.avg_sentence_length r.conjunction_count) ∧
      (calculate_cognitive_score r).emotional_expression =
        round1 (emotion_component r.polarity) :=
  ⟨rfl, rfl, rfl, rfl⟩

/-- A sample valid input: duration 20 s, polarity 0, subjectivity 0.5,
50 words of which 40 unique, diversity 0.8, average sentence length 15,
2 conjunctions. -/
def sampleResult : AnalysisResult :=
  { duration := 20, polarity := 0, subjectivity := 1/2, total_words := 50,
    unique_words := 40, diversity_score := 4/5, avg_sentence_length := 15,
    conjunction_count := 2 }

theorem sampleResult_valid : ValidResult sampleResult := by
  unfold ValidResult sampleResult
  norm_num

/-! ### Claim theorems -/

/-- C1: for every valid AnalysisResult (duration ≥ 0, polarity ∈ [-1,1],
diversity_score ∈ [0,1], total_words ≥ 0 integer, avg_sentence_length ≥ 0,
conjunction_count ≥ 0 integer), the overall_score returned by
`calculate_cognitive_score` satisfies 0 ≤ overall_score ≤ 100. -/
theorem C1_overall_score_in_0_100 (r : AnalysisResult) (h : ValidResult r) :
    0 ≤ (calculate_cognitive_score r).overall_score ∧
      (calculate_cognitive_score r).overall_score ≤ 100 := by
  rw [calc_overall_eq]
  obtain ⟨h18, h100⟩ := raw_overall_bounds r
  constructor
  · have := le_round1_int (n := 18) (x := raw_overall r) (by push_cast; linarith)
    push_cast at this
    linarith
  · have := round1_le_int (n := 100) (x := raw_overall r) (by push_cast; linarith)
    push_cast at this
    linarith

theorem C1_witness :
    ValidResult sampleResult ∧
      0 ≤ (calculate_cognitive_score sampleResult).overall_score ∧
      (calculate_cognitive_score sampleResult).overall_score ≤ 100 :=
  ⟨sampleResult_valid, C1_overall_score_in_0_100 sampleResult sampleResult_valid⟩

/-- C9: for every valid AnalysisResult, the unclamped cognitive-age
expression 35 + (85 − overall) × 0.3 computed from the weighted raw score
is at least 30.4, so the clamp `max 20 …` never selects its 20 branch and
the returned cognitive_age is at least 30.4 (well above the stated spec
minimum of 20). -/
theorem C9_age_clamp_never_selected (r : AnalysisResult) (h : ValidResult r) :
    (304/10 : ℚ) ≤ 35 + (85 - raw_overall r) * 0.3 ∧
      max 20 (35 + (85 - raw_overall r) * 0.3) = 35 + (85 - raw_overall r) * 0.3 ∧
      (304/10 : ℚ) ≤ (calculate_cognitive_score r).cognitive_age := by
  obtain ⟨h18, h100⟩ := raw_overall_bounds r
  have hage : (304/10 : ℚ) ≤ 35 + (85 - raw_overall r) * 0.3 := by norm_num; linarith
  refine ⟨hage, max_eq_right (by linarith), ?_⟩
  rw [calc_age_eq, max_eq_right (by linarith)]
  have := le_round1 (35 + (85 - raw_overall r) * 0.3)
  norm_num at hage ⊢
  nlinarith

theorem C9_witness :
    ValidResult sampleResult ∧
      ((304/10 : ℚ) ≤ 35 + (85 - raw_overall sampleResult) * 0.3 ∧
        max 20 (35 + (85 - raw_overall sampleResult) * 0.3) =
          35 + (85 - raw_overall sampleResult) * 0.3 ∧
        (304/10 : ℚ) ≤ (calculate_cognitive_score sampleResult).cognitive_age) :=
  ⟨sampleResult_valid, C9_age_clamp_never_selected sampleResult sampleResult_valid⟩

/-- C10: for every valid AnalysisResult, the fluency, complexity and
emotion components are at least 20, 20 and 40 (the else branch of each rule is
its lowest band), so the weighted raw score is at least 18 and the
returned overall_score is never below 18.0. -/
theorem C10_overall_score_at_least_18 (r : AnalysisResult) (h : ValidResult r) :
    20 ≤ fluency_component (words_per_second (r.total_words : ℚ) r.duration) ∧
      20 ≤ complexity_component r.avg_sentence_length r.conjunction_count ∧
      40 ≤ emotion_component r.polarity ∧
      18 ≤ raw_overall r ∧
      18 ≤ (calculate_cognitive_score r).overall_score := by
  obtain ⟨h18, _⟩ := raw_overall_bounds r
  refine ⟨(fluency_component_range _).1, (complexity_component_range _ _).1,
    (emotion_component_range _).1, h18, ?_⟩
  rw [calc_overall_eq]
  have := le_round1_int (n := 18) (x := raw_overall r) (by push_cast; linarith)
  push_cast at this
  linarith

theorem C10_witness :
    ValidResult sampleResult ∧
      (20 ≤ fluency_component
          (words_per_second (sampleResult.total_words : ℚ) sampleResult.duration) ∧
        20 ≤ complexity_component sampleResult.avg_sentence_length
          sampleResult.conjunction_count ∧
        40 ≤ emotion_component sampleResult.polarity ∧
        18 ≤ raw_overall sampleResult ∧
        18 ≤ (calculate_cognitive_score sampleResult).overall_score) :=
  ⟨sampleResult_valid, C10_overall_score_at_least_18 sampleResult sampleResult_valid⟩

/-- C4: `calculate_cognitive_score` derives words_per_second as
total_words/duration, taking the value 0 when duration = 0 without any
error, and the fluency component follows the banded rule; duration = 0
therefore always yields fluency component 20. -/
theorem C4_fluency_banded_rule (tw dur w : ℚ) (htw : 0 ≤ tw) (hdur : 0 ≤ dur) :
    (dur = 0 → words_per_second tw dur = 0 ∧
      fluency_component (words_per_second tw dur) = 20) ∧
    (0 < dur → words_per_second tw dur = tw / dur) ∧
    (2.0 ≤ w ∧ w ≤ 3.0 → fluency_component w = 100) ∧
    ((1.5 ≤ w ∧ w < 2.0) ∨ (3.0 < w ∧ w ≤ 3.5) → fluency_component w = 80) ∧
    ((1.0 ≤ w ∧ w < 1.5) ∨ (3.5 < w ∧ w ≤ 4.0) → fluency_component w = 60) ∧
    ((0.5 ≤ w ∧ w < 1.0) ∨ (4.0 < w ∧ w ≤ 5.0) → fluency_component w = 40) ∧
    (w < 0.5 ∨ 5.0 < w → fluency_component w = 20) := by
  refine ⟨?_, ?_, ?_, ?_, ?_, ?_, ?_⟩
  · intro h0
    have hw : words_per_second tw dur = 0 := by
      unfold words_per_second
      rw [if_neg (by rw [h0]; exact lt_irrefl 0)]
    refine ⟨hw, ?_⟩
    rw [hw]
    unfold fluency_component
    rw [if_neg (by rintro ⟨c, d⟩; norm_num at c),
      if_neg (by rintro (⟨c, d⟩ | ⟨c, d⟩) <;> norm_num at c),
      if_neg (by rintro (⟨c, d⟩ | ⟨c, d⟩) <;> norm_num at c),
      if_neg (by rintro (⟨c, d⟩ | ⟨c, d⟩) <;> norm_num at c)]
  · intro hpos
    unfold words_per_second
    rw [if_pos hpos]
  · intro h
    unfold fluency_component
    rw [if_pos h]
  · intro h
    unfold fluency_component
    rw [if_neg (by rcases h with ⟨a, b⟩ | ⟨a, b⟩ <;> rintro ⟨c, d⟩ <;> linarith),
      if_pos h]
  · intro h
    unfold fluency_component
    rw [if_neg (by rcases h with ⟨a, b⟩ | ⟨a, b⟩ <;> rintro ⟨c, d⟩ <;> linarith),
      if_neg (by rcases h with ⟨a, b⟩ | ⟨a, b⟩ <;> rintro (⟨c, d⟩ | ⟨c, d⟩) <;> linarith),
      if_pos h]
  · intro h
    unfold fluency_component
    rw [if_neg (by rcases h with ⟨a, b⟩ | ⟨a, b⟩ <;> rintro ⟨c, d⟩ <;> linarith),
      if_neg (by rcases h with ⟨a, b⟩ | ⟨a, b⟩ <;> rintro (⟨c, d⟩ | ⟨c, d⟩) <;> linarith),
      if_neg (by rcases h with ⟨a, b⟩ | ⟨a, b⟩ <;> rintro (⟨c, d⟩ | ⟨c, d⟩) <;> linarith),
      if_pos h]
  · intro h
    unfold fluency_component
    rw [if_neg (by rcases h with a | a <;> rintro ⟨c, d⟩ <;> linarith),
      if_neg (by rcases h with a | a <;> rintro (⟨c, d⟩ | ⟨c, d⟩) <;> linarith),
      if_neg (by rcases h with a | a <;> rintro (⟨c, d⟩ | ⟨c, d⟩) <;> linarith),
      if_neg (by rcases h with a | a <;> rintro (⟨c, d⟩ | ⟨c, d⟩) <;> linarith)]

theorem C4_witness :
    (0 : ℚ) ≤ 7 ∧ (0 : ℚ) ≤ 0 ∧
      (((0 : ℚ) = 0 → words_per_second 7 0 = 0 ∧
          fluency_component (words_per_second 7 0) = 20) ∧
        ((0 : ℚ) < 0 → words_per_second 7 0 = 7 / 0) ∧
        (2.0 ≤ (5/2 : ℚ) ∧ (5/2 : ℚ) ≤ 3.0 → fluency_component (5/2) = 100) ∧
        ((1.5 ≤ (5/2 : ℚ) ∧ (5/2 : ℚ) < 2.0) ∨ (3.0 < (5/2 : ℚ) ∧ (5/2 : ℚ) ≤ 3.5) →
          fluency_component (5/2) = 80) ∧
        ((1.0 ≤ (5/2 : ℚ) ∧ (5/2 : ℚ) < 1.5) ∨ (3.5 < (5/2 : ℚ) ∧ (5/2 : ℚ) ≤ 4.0) →
          fluency_component (5/2) = 60) ∧
        ((0.5 ≤ (5/2 : ℚ) ∧ (5/2 : ℚ) < 1.0) ∨ (4.0 < (5/2 : ℚ) ∧ (5/2 : ℚ) ≤ 5.0) →
          fluency_component (5/2) = 40) ∧
        ((5/2 : ℚ) < 0.5 ∨ 5.0 < (5/2 : ℚ) → fluency_component (5/2) = 20)) :=
  ⟨by norm_num, by norm_num, C4_fluency_banded_rule 7 0 (5/2) (by norm_num) (by norm_num)⟩

/-- C5: the complexity component follows the banded rule on
avg_sentence_length and conjunction_count; in particular
avg_sentence_length = 4 with conjunction_count = 0 yields 40. -/
theorem C5_complexity_banded_rule (a : ℚ) (c : ℕ) (ha : 0 ≤ a) :
    ((12 ≤ a ∧ a ≤ 20) ∧ 1 ≤ c → complexity_component a c = 100) ∧
    ((8 ≤ a ∧ a < 12) ∨ (20 < a ∧ a ≤ 25) → complexity_component a c = 80) ∧
    ((6 ≤ a ∧ a < 8) ∨ (25 < a ∧ a ≤ 30) → complexity_component a c = 60) ∧
    ((4 ≤ a ∧ a < 6) ∨ 30 < a → complexity_component a c = 40) ∧
    (¬((12 ≤ a ∧ a ≤ 20) ∧ 1 ≤ c) ∧ ¬((8 ≤ a ∧ a < 12) ∨ (20 < a ∧ a ≤ 25)) ∧
        ¬((6 ≤ a ∧ a < 8) ∨ (25 < a ∧ a ≤ 30)) ∧ ¬((4 ≤ a ∧ a < 6) ∨ 30 < a) →
      complexity_component a c = 20) ∧
    (a = 4 ∧ c = 0 → complexity_component a c = 40) := by
  refine ⟨?_, ?_, ?_, ?_, ?_, ?_⟩
  · intro h
    unfold complexity_component
    rw [if_pos h]
  · intro h
    unfold complexity_component
    rw [if_neg (by rcases h with ⟨a1, b1⟩ | ⟨a1, b1⟩ <;> rintro ⟨⟨c1, d1⟩, e1⟩ <;> linarith),
      if_pos h]
  · intro h
    unfold complexity_component
    rw [if_neg (by rcases h with ⟨a1, b1⟩ | ⟨a1, b1⟩ <;> rintro ⟨⟨c1, d1⟩, e1⟩ <;> linarith),
      if_neg (by rcases h with ⟨a1, b1⟩ | ⟨a1, b1⟩ <;> rintro (⟨c1, d1⟩ | ⟨c1, d1⟩) <;> linarith),
      if_pos h]
  · intro h
    unfold complexity_component
    rw [if_neg (by rcases h with ⟨a1, b1⟩ | a1 <;> rintro ⟨⟨c1, d1⟩, e1⟩ <;> linarith),
      if_neg (by rcases h with ⟨a1, b1⟩ | a1 <;> rintro (⟨c1, d1⟩ | ⟨c1, d1⟩) <;> linarith),
      if_neg (by rcases h with ⟨a1, b1⟩ | a1 <;> rintro (⟨c1, d1⟩ | ⟨c1, d1⟩) <;> linarith),
      if_pos h]
  · rintro ⟨h1, h2, h3, h4⟩
    unfold complexity_component
    rw [if_neg h1, if_neg h2, if_neg h3, if_neg h4]
  · rintro ⟨ha4, hc0⟩
    subst ha4 hc0
    unfold complexity_component
    rw [if_neg (by rintro ⟨⟨c1, d1⟩, e1⟩ <;> norm_num at c1),
      if_neg (by rintro (⟨c1, d1⟩ | ⟨c1, d1⟩) <;> norm_num at c1),
      if_neg (by rintro (⟨c1, d1⟩ | ⟨c1, d1⟩) <;> norm_num at c1),
      if_pos (Or.inl ⟨le_refl 4, by norm_num⟩)]

theorem C5_witness :
    (0 : ℚ) ≤ 4 ∧
      ((((12 : ℚ) ≤ 4 ∧ (4 : ℚ) ≤ 20) ∧ 1 ≤ 0 → complexity_component 4 0 = 100) ∧
        (((8 : ℚ) ≤ 4 ∧ (4 : ℚ) < 12) ∨ ((20 : ℚ) < 4 ∧ (4 : ℚ) ≤ 25) →
          complexity_component 4 0 = 80) ∧
        (((6 : ℚ) ≤ 4 ∧ (4 : ℚ) < 8) ∨ ((25 : ℚ) < 4 ∧ (4 : ℚ) ≤ 30) →
          complexity_component 4 0 = 60) ∧
        (((4 : ℚ) ≤ 4 ∧ (4 : ℚ) < 6) ∨ (30 : ℚ) < 4 → complexity_component 4 0 = 40) ∧
        (¬(((12 : ℚ) ≤ 4 ∧ (4 : ℚ) ≤ 20) ∧ 1 ≤ 0) ∧
            ¬(((8 : ℚ) ≤ 4 ∧ (4 : ℚ) < 12) ∨ ((20 : ℚ) < 4 ∧ (4 : ℚ) ≤ 25)) ∧
            ¬(((6 : ℚ) ≤ 4 ∧ (4 : ℚ) < 8) ∨ ((25 : ℚ) < 4 ∧ (4 : ℚ) ≤ 30)) ∧
            ¬(((4 : ℚ) ≤ 4 ∧ (4 : ℚ) < 6) ∨ (30 : ℚ) < 4) →
          complexity_component 4 0 = 20) ∧
        ((4 : ℚ) = 4 ∧ 0 = 0 → complexity_component 4 0 = 40)) :=
  ⟨by norm_num, C5_complexity_banded_rule 4 0 (by norm_num)⟩

/-- The concatenation of per-component tips built by the
recommendation block, before the empty-list fallback. -/
def tip_list (r : AnalysisResult) : List String :=
  (if diversity_component r.diversity_score < 70 then
    ["📚 Expand vocabulary through reading diverse materials"] else []) ++
  (if fluency_component (words_per_second (r.total_words : ℚ) r.duration) < 70 then
    [if words_per_second (r.total_words : ℚ) r.duration < 1.5 then
      "🗣️ Practice speaking exercises to improve fluency"
     else "⏸️ Practice paced speaking to improve clarity"] else []) ++
  (if complexity_component r.avg_sentence_length r.conjunction_count < 70 then
    ["🧠 Practice using varied sentence structures and connecting words"] else []) ++
  (if emotion_component r.polarity < 70 then
    ["😊 Consider activities that promote emotional well-being"] else [])

theorem calc_recommendations_eq (r : AnalysisResult) :
    (calculate_cognitive_score r).recommendations =
      if tip_list r = [] then
        ["🎉 Excellent results! Continue maintaining cognitive health through regular mental activities"]
      else tip_list r := rfl

/-- C8: the recommendations list holds exactly one fixed tip per
component scoring below 70, in the order lexical, fluency, complexity,
emotion (the fluency tip picked by words_per_second < 1.5), and exactly
the single positive-affirmation message when no component is below 70. -/
theorem C8_recommendations (r : AnalysisResult) (h : ValidResult r) :
    (diversity_component r.diversity_score < 70 ∨
        fluency_component (words_per_second (r.total_words : ℚ) r.duration) < 70 ∨
        complexity_component r.avg_sentence_length r.conjunction_count < 70 ∨
        emotion_component r.polarity < 70 →
      (calculate_cognitive_score r).recommendations =
        (if diversity_component r.diversity_score < 70 then
          ["📚 Expand vocabulary through reading diverse materials"] else []) ++
        (if fluency_component (words_per_second (r.total_words : ℚ) r.duration) < 70 then
          [if words_per_second (r.total_words : ℚ) r.duration < 1.5 then
            "🗣️ Practice speaking exercises to improve fluency"
           else "⏸️ Practice paced speaking to improve clarity"] else []) ++
        (if complexity_component r.avg_sentence_length r.conjunction_count < 70 then
          ["🧠 Practice using varied sentence structures and connecting words"] else []) ++
        (if emotion_component r.polarity < 70 then
          ["😊 Consider activities that promote emotional well-being"] else [])) ∧
    (70 ≤ diversity_component r.diversity_score →
      70 ≤ fluency_component (words_per_second (r.total_words : ℚ) r.duration) →
      70 ≤ complexity_component r.avg_sentence_length r.conjunction_count →
      70 ≤ emotion_component r.polarity →
      (calculate_cognitive_score r).recommendations =
        ["🎉 Excellent results! Continue maintaining cognitive health through regular mental activities"]) := by
  rw [calc_recommendations_eq]
  constructor
  · intro hlt
    have hne : tip_list r ≠ [] := by
      unfold tip_list
      rcases hlt with h1 | h1 | h1 | h1 <;> rw [if_pos h1] <;> simp
    rw [if_neg hne]
    rfl
  · intro h1 h2 h3 h4
    have hnil : tip_list r = [] := by
      unfold tip_list
      rw [if_neg (not_lt.mpr h1), if_neg (not_lt.mpr h2), if_neg (not_lt.mpr h3),
        if_neg (not_lt.mpr h4)]
      rfl
    rw [if_pos hnil]

theorem C8_witness :
    ValidResult sampleResult ∧
      ((diversity_component sampleResult.diversity_score < 70 ∨
          fluency_component
            (words_per_second (sampleResult.total_words : ℚ) sampleResult.duration) < 70 ∨
          complexity_component sampleResult.avg_sentence_length
            sampleResult.conjunction_count < 70 ∨
          emotion_component sampleResult.polarity < 70 →
        (calculate_cognitive_score sampleResult).recommendations =
          (if diversity_component sampleResult.diversity_score < 70 then
            ["📚 Expand vocabulary through reading diverse materials"] else []) ++
          (if fluency_component
              (words_per_second (sampleResult.total_words : ℚ) sampleResult.duration) < 70 then
            [if words_per_second (sampleResult.total_words : ℚ) sampleResult.duration < 1.5 then
              "🗣️ Practice speaking exercises to improve fluency"
             else "⏸️ Practice paced speaking to improve clarity"] else []) ++
          (if complexity_component sampleResult.avg_sentence_length
              sampleResult.conjunction_count < 70 then
            ["🧠 Practice using varied sentence structures and connecting words"] else []) ++
          (if emotion_component sampleResult.polarity < 70 then
            ["😊 Consider activities that promote emotional well-being"] else [])) ∧
        (70 ≤ diversity_component sampleResult.diversity_score →
          70 ≤ fluency_component
            (words_per_second (sampleResult.total_words : ℚ) sampleResult.duration) →
          70 ≤ complexity_component sampleResult.avg_sentence_length
            sampleResult.conjunction_count →
          70 ≤ emotion_component sampleResult.polarity →
          (calculate_cognitive_score sampleResult).recommendations =
            ["🎉 Excellent results! Continue maintaining cognitive health through regular mental activities"])) :=
  ⟨sampleResult_valid, C8_recommendations sampleResult sampleResult_valid⟩

/-- C2 counterexample: at diversity_score = 0.749999 (inside [0.6,0.75))
the lexical component is 60 + 0.149999 × 266.67 = 100.00023…, strictly
above 100, so the component does not always lie in [0,100]. -/
theorem C2_counterexample :
    (0 : ℚ) ≤ 749999/1000000 ∧ (749999/1000000 : ℚ) ≤ 1 ∧
      100 < diversity_component (749999/1000000) := by
  refine ⟨by norm_num, by norm_num, ?_⟩
  unfold diversity_component
  rw [if_neg (by norm_num), if_pos (by norm_num)]
  norm_num

/-- C2 (amended): for diversity_score in [0,1] the lexical component
follows the piecewise rule of the code — 100 at or above 0.75, the affine map
60 + (d − 0.6) × 266.67 on [0.6,0.75) (which overshoots 100 for d just
below 0.75 because 266.67 slightly exceeds 40/0.15), the affine map
30 + (d − 0.4) × 150 on [0.4,0.6), and max(0, d × 75) below 0.4 — and in
every case the component lies in [0, 100.0005). -/
theorem C2_lexical_component_rule (d : ℚ) (h0 : 0 ≤ d) (h1 : d ≤ 1) :
    (0.75 ≤ d → diversity_component d = 100) ∧
    (0.6 ≤ d → d < 0.75 → diversity_component d = 60 + (d - 0.6) * 266.67) ∧
    (0.4 ≤ d → d < 0.6 → diversity_component d = 30 + (d - 0.4) * 150) ∧
    (d < 0.4 → diversity_component d = max 0 (d * 75)) ∧
    0 ≤ diversity_component d ∧ diversity_component d < 2000.01/20 := by
  refine ⟨?_, ?_, ?_, ?_, diversity_component_nonneg d, ?_⟩
  · intro h
    unfold diversity_component
    rw [if_pos h]
  · intro ha hb
    unfold diversity_component
    rw [if_neg (by norm_num; linarith), if_pos ha]
  · intro ha hb
    unfold diversity_component
    rw [if_neg (by norm_num; linarith), if_neg (by norm_num; linarith), if_pos ha]
  · intro ha
    unfold diversity_component
    rw [if_neg (by norm_num; linarith), if_neg (by norm_num; linarith),
      if_neg (by norm_num; linarith)]
  · have := diversity_component_lt d
    norm_num
    linarith

theorem C2_witness :
    (0 : ℚ) ≤ 7/10 ∧ (7/10 : ℚ) ≤ 1 ∧
      ((0.75 ≤ (7/10 : ℚ) → diversity_component (7/10) = 100) ∧
        (0.6 ≤ (7/10 : ℚ) → (7/10 : ℚ) < 0.75 →
          diversity_component (7/10) = 60 + ((7/10 : ℚ) - 0.6) * 266.67) ∧
        (0.4 ≤ (7/10 : ℚ) → (7/10 : ℚ) < 0.6 →
          diversity_component (7/10) = 30 + ((7/10 : ℚ) - 0.4) * 150) ∧
        ((7/10 : ℚ) < 0.4 → diversity_component (7/10) = max 0 ((7/10 : ℚ) * 75)) ∧
        0 ≤ diversity_component (7/10) ∧ diversity_component (7/10) < 2000.01/20) :=
  ⟨by norm_num, by norm_num, C2_lexical_component_rule (7/10) (by norm_num) (by norm_num)⟩

/-! ### Evaluation at concrete inputs -/

theorem round1_eq_of_lt {x : ℚ} {z : ℤ} (h1 : (z : ℚ) ≤ 10 * x) (h2 : 10 * x < z + 1/2) :
    round1 x = (z : ℚ) / 10 := by
  unfold round1
  rw [roundHalfEven_eq_of_lt h1 h2]

theorem round1_eq_of_gt {x : ℚ} {z : ℤ} (h1 : (z : ℚ) + 1/2 < 10 * x) (h2 : 10 * x < z + 1) :
    round1 x = ((z : ℚ) + 1) / 10 := by
  unfold round1
  rw [roundHalfEven_eq_of_gt h1 h2]
  push_cast
  ring

theorem words_per_second_50_20 : words_per_second ((50 : ℕ) : ℚ) 20 = 5/2 := by
  unfold words_per_second
  rw [if_pos (by norm_num)]
  norm_num

theorem fluency_component_at_5_2 : fluency_component (5/2) = 100 := by
  unfold fluency_component
  rw [if_pos (by norm_num)]

theorem complexity_component_at_15_2 : complexity_component 15 2 = 100 := by
  unfold complexity_component
  rw [if_pos (by norm_num)]

theorem emotion_component_at_0 : emotion_component 0 = 100 := by
  unfold emotion_component
  rw [if_pos (by norm_num)]

theorem round1_at_100 : round1 100 = 100 := by
  have := round1_eq_of_lt (x := 100) (z := 1000) (by norm_num) (by norm_num)
  rw [this]
  norm_num

/-- Input whose lexical component is 60.16: the weighted sum is 88.048,
which rounds to 88.0, while combining the rounded reported components
gives 88.06, which rounds to 88.1. -/
def resultC3 : AnalysisResult :=
  { duration := 20, polarity := 0, subjectivity := 1/2, total_words := 50,
    unique_words := 40, diversity_score := 80081/133335, avg_sentence_length := 15,
    conjunction_count := 2 }

/-- Input whose lexical component is 33.2: the weighted sum is 79.96, so
the returned overall_score rounds to 80.0 while the risk level is chosen
from the unrounded 79.96. -/
def resultC6 : AnalysisResult :=
  { duration := 20, polarity := 0, subjectivity := 1/2, total_words := 50,
    unique_words := 40, diversity_score := 158/375, avg_sentence_length := 15,
    conjunction_count := 2 }

/-- Input whose lexical component is 60.5333…: the weighted sum is 88.16,
whose cognitive age 34.052 rounds to 34.1, while recomputing the age from
the rounded overall_score 88.2 gives 34.04, which rounds to 34.0. -/
def resultC7 : AnalysisResult :=
  { duration := 20, polarity := 0, subjectivity := 1/2, total_words := 50,
    unique_words := 40, diversity_score := 240803/400005, avg_sentence_length := 15,
    conjunction_count := 2 }

theorem diversity_component_resultC3 : diversity_component (80081/133335) = 1504/25 := by
  unfold diversity_component
  rw [if_neg (by norm_num), if_pos (by norm_num)]
  norm_num

theorem diversity_component_resultC6 : diversity_component (158/375) = 166/5 := by
  unfold diversity_component
  rw [if_neg (by norm_num), if_neg (by norm_num), if_pos (by norm_num)]
  norm_num

theorem diversity_component_resultC7 : diversity_component (240803/400005) = 908/15 := by
  unfold diversity_component
  rw [if_neg (by norm_num), if_pos (by norm_num)]
  norm_num

theorem raw_overall_resultC3 : raw_overall resultC3 = 11006/125 := by
  show diversity_component (80081/133335) * 0.30 +
      fluency_component (words_per_second ((50 : ℕ) : ℚ) 20) * 0.25 +
      complexity_component 15 2 * 0.25 + emotion_component 0 * 0.20 = 11006/125
  rw [diversity_component_resultC3, words_per_second_50_20, fluency_component_at_5_2,
    complexity_component_at_15_2, emotion_component_at_0]
  norm_num

theorem raw_overall_resultC6 : raw_overall resultC6 = 1999/25 := by
  show diversity_component (158/375) * 0.30 +
      fluency_component (words_per_second ((50 : ℕ) : ℚ) 20) * 0.25 +
      complexity_component 15 2 * 0.25 + emotion_component 0 * 0.20 = 1999/25
  rw [diversity_component_resultC6, words_per_second_50_20, fluency_component_at_5_2,
    complexity_component_at_15_2, emotion_component_at_0]
  norm_num

theorem raw_overall_resultC7 : raw_overall resultC7 = 2204/25 := by
  show diversity_component (240803/400005) * 0.30 +
      fluency_component (words_per_second ((50 : ℕ) : ℚ) 20) * 0.25 +
      complexity_component 15 2 * 0.25 + emotion_component 0 * 0.20 = 2204/25
  rw [diversity_component_resultC7, words_per_second_50_20, fluency_component_at_5_2,
    complexity_component_at_15_2, emotion_component_at_0]
  norm_num

theorem calc_risk_eq (r : AnalysisResult) :
    (calculate_cognitive_score r).risk_level =
        (if raw_overall r ≥ 80 then "Low Risk"
         else if raw_overall r ≥ 65 then "Low-Moderate Risk"
         else if raw_overall r ≥ 50 then "Moderate Risk"
         else "Higher Risk") ∧
      (calculate_cognitive_score r).risk_color =
        (if raw_overall r ≥ 80 then "🟢"
         else if raw_overall r ≥ 65 then "🟡"
         else if raw_overall r ≥ 50 then "🟠"
         else "🔴") ∧
      (calculate_cognitive_score r).risk_description =
        (if raw_overall r ≥ 80 then "Excellent cognitive health indicators"
         else if raw_overall r ≥ 65 then "Good cognitive health with minor areas for attention"
         else if raw_overall r ≥ 50 then "Some cognitive health concerns detected"
         else "Multiple cognitive health indicators suggest consultation recommended") :=
  ⟨rfl, rfl, rfl⟩

/-- C3 counterexample: at diversity_score = 80081/133335 the weighted sum
of the unrounded components is 88.048, so overall_score = 88.0, but the
convex combination of the rounded components reported in component_scores
is 88.06, which rounds to 88.1. -/
theorem C3_counterexample :
    ValidResult resultC3 ∧
      (calculate_cognitive_score resultC3).overall_score ≠
        round1 (0.30 * (calculate_cognitive_score resultC3).lexical_diversity +
          0.25 * (calculate_cognitive_score resultC3).speech_fluency +
          0.25 * (calculate_cognitive_score resultC3).sentence_complexity +
          0.20 * (calculate_cognitive_score resultC3).emotional_expression) := by
  constructor
  · unfold ValidResult resultC3
    norm_num
  · have hov : (calculate_cognitive_score resultC3).overall_score = 88 := by
      rw [calc_overall_eq, raw_overall_resultC3,
        round1_eq_of_lt (z := 880) (by norm_num) (by norm_num)]
      norm_num
    have hld : (calculate_cognitive_score resultC3).lexical_diversity = 301/5 := by
      have h := (calc_components_eq resultC3).1
      rw [h]
      show round1 (diversity_component (80081/133335)) = 301/5
      rw [diversity_component_resultC3,
        round1_eq_of_gt (z := 601) (by norm_num) (by norm_num)]
      norm_num
    have hsf : (calculate_cognitive_score resultC3).speech_fluency = 100 := by
      have h := (calc_components_eq resultC3).2.1
      rw [h]
      show round1 (fluency_component (words_per_second ((50 : ℕ) : ℚ) 20)) = 100
      rw [words_per_second_50_20, fluency_component_at_5_2, round1_at_100]
    have hsc : (calculate_cognitive_score resultC3).sentence_complexity = 100 := by
      have h := (calc_components_eq resultC3).2.2.1
      rw [h]
      show round1 (complexity_component 15 2) = 100
      rw [complexity_component_at_15_2, round1_at_100]
    have hee : (calculate_cognitive_score resultC3).emotional_expression = 100 := by
      have h := (calc_components_eq resultC3).2.2.2
      rw [h]
      show round1 (emotion_component 0) = 100
      rw [emotion_component_at_0, round1_at_100]
    rw [hov, hld, hsf, hsc, hee]
    have : round1 (0.30 * (301/5 : ℚ) + 0.25 * 100 + 0.25 * 100 + 0.20 * 100) = 881/10 := by
      have heq : (0.30 * (301/5 : ℚ) + 0.25 * 100 + 0.25 * 100 + 0.20 * 100) = 4403/50 := by
        norm_num
      rw [heq, round1_eq_of_gt (z := 880) (by norm_num) (by norm_num)]
      norm_num
    rw [this]
    norm_num

/-- C3 (amended): the returned overall_score is the 1-decimal rounding of
the convex combination 0.30/0.25/0.25/0.20 of the four UNROUNDED
component scores; component_scores reports each component separately
rounded to 1 decimal. -/
theorem C3_overall_from_unrounded (r : AnalysisResult) (h : ValidResult r) :
    (calculate_cognitive_score r).overall_score =
      round1 (diversity_component r.diversity_score * 0.30 +
        fluency_component (words_per_second (r.total_words : ℚ) r.duration) * 0.25 +
        complexity_component r.avg_sentence_length r.conjunction_count * 0.25 +
        emotion_component r.polarity * 0.20) ∧
    (calculate_cognitive_score r).lexical_diversity =
      round1 (diversity_component r.diversity_score) ∧
    (calculate_cognitive_score r).speech_fluency =
      round1 (fluency_component (words_per_second (r.total_words : ℚ) r.duration)) ∧
    (calculate_cognitive_score r).sentence_complexity =
      round1 (complexity_component r.avg_sentence_length r.conjunction_count) ∧
    (calculate_cognitive_score r).emotional_expression =
      round1 (emotion_component r.polarity) :=
  ⟨calc_overall_eq r, (calc_components_eq r).1, (calc_components_eq r).2.1,
    (calc_components_eq r).2.2.1, (calc_components_eq r).2.2.2⟩

theorem C3_witness :
    ValidResult sampleResult ∧
      ((calculate_cognitive_score sampleResult).overall_score =
        round1 (diversity_component sampleResult.diversity_score * 0.30 +
          fluency_component
            (words_per_second (sampleResult.total_words : ℚ) sampleResult.duration) * 0.25 +
          complexity_component sampleResult.avg_sentence_length
            sampleResult.conjunction_count * 0.25 +
          emotion_component sampleResult.polarity * 0.20) ∧
      (calculate_cognitive_score sampleResult).lexical_diversity =
        round1 (diversity_component sampleResult.diversity_score) ∧
      (calculate_cognitive_score sampleResult).speech_fluency =
        round1 (fluency_component
          (words_per_second (sampleResult.total_words : ℚ) sampleResult.duration)) ∧
      (calculate_cognitive_score sampleResult).sentence_complexity =
        round1 (complexity_component sampleResult.avg_sentence_length
          sampleResult.conjunction_count) ∧
      (calculate_cognitive_score sampleResult).emotional_expression =
        round1 (emotion_component sampleResult.polarity)) :=
  ⟨sampleResult_valid, C3_overall_from_unrounded sampleResult sampleResult_valid⟩

/-- C6 counterexample: at diversity_score = 158/375 the weighted sum is
79.96, so the function returns overall_score = 80.0 yet risk_level
"Low-Moderate Risk" — refuting "overall_score 80.0 gives Low Risk". -/
theorem C6_counterexample :
    ValidResult resultC6 ∧
      (calculate_cognitive_score resultC6).overall_score = 80 ∧
      (calculate_cognitive_score resultC6).risk_level = "Low-Moderate Risk" := by
  refine ⟨by unfold ValidResult resultC6; norm_num, ?_, ?_⟩
  · rw [calc_overall_eq, raw_overall_resultC6,
      round1_eq_of_gt (z := 799) (by norm_num) (by norm_num)]
    norm_num
  · rw [(calc_risk_eq resultC6).1, raw_overall_resultC6]
    rw [if_neg (by norm_num), if_pos (by norm_num)]

/-- C6 (amended): risk_level, risk_color and risk_description are chosen
by thresholds 80/65/50 applied to the UNROUNDED weighted score (the
returned overall_score is that score rounded to 1 decimal, and the
rounding can cross a threshold). -/
theorem C6_risk_rule (r : AnalysisResult) (h : ValidResult r) :
    (80 ≤ raw_overall r →
      (calculate_cognitive_score r).risk_level = "Low Risk" ∧
        (calculate_cognitive_score r).risk_color = "🟢" ∧
        (calculate_cognitive_score r).risk_description =
          "Excellent cognitive health indicators") ∧
    (65 ≤ raw_overall r → raw_overall r < 80 →
      (calculate_cognitive_score r).risk_level = "Low-Moderate Risk" ∧
        (calculate_cognitive_score r).risk_color = "🟡" ∧
        (calculate_cognitive_score r).risk_description =
          "Good cognitive health with minor areas for attention") ∧
    (50 ≤ raw_overall r → raw_overall r < 65 →
      (calculate_cognitive_score r).risk_level = "Moderate Risk" ∧
        (calculate_cognitive_score r).risk_color = "🟠" ∧
        (calculate_cognitive_score r).risk_description =
          "Some cognitive health concerns detected") ∧
    (raw_overall r < 50 →
      (calculate_cognitive_score r).risk_level = "Higher Risk" ∧
        (calculate_cognitive_score r).risk_color = "🔴" ∧
        (calculate_cognitive_score r).risk_description =
          "Multiple cognitive health indicators suggest consultation recommended") := by
  obtain ⟨hl, hc, hd⟩ := calc_risk_eq r
  refine ⟨?_, ?_, ?_, ?_⟩
  · intro h80
    rw [hl, hc, hd]
    rw [if_pos h80, if_pos h80, if_pos h80]
    exact ⟨rfl, rfl, rfl⟩
  · intro h65 h80
    rw [hl, hc, hd]
    rw [if_neg (by simpa using not_le.mpr h80), if_pos h65,
      if_neg (by simpa using not_le.mpr h80), if_pos h65,
      if_neg (by simpa using not_le.mpr h80), if_pos h65]
    exact ⟨rfl, rfl, rfl⟩
  · intro h50 h65
    rw [hl, hc, hd]
    rw [if_neg (by simpa using not_le.mpr (lt_trans h65 (by norm_num))),
      if_neg (by simpa using not_le.mpr h65), if_pos h50,
      if_neg (by simpa using not_le.mpr (lt_trans h65 (by norm_num))),
      if_neg (by simpa using not_le.mpr h65), if_pos h50,
      if_neg (by simpa using not_le.mpr (lt_trans h65 (by norm_num))),
      if_neg (by simpa using not_le.mpr h65), if_pos h50]
    exact ⟨rfl, rfl, rfl⟩
  · intro h50
    rw [hl, hc, hd]
    rw [if_neg (by simpa using not_le.mpr (lt_trans h50 (by norm_num))),
      if_neg (by simpa using not_le.mpr (lt_trans h50 (by norm_num))),
      if_neg (by simpa using not_le.mpr h50),
      if_neg (by simpa using not_le.mpr (lt_trans h50 (by norm_num))),
      if_neg (by simpa using not_le.mpr (lt_trans h50 (by norm_num))),
      if_neg (by simpa using not_le.mpr h50),
      if_neg (by simpa using not_le.mpr (lt_trans h50 (by norm_num))),
      if_neg (by simpa using not_le.mpr (lt_trans h50 (by norm_num))),
      if_neg (by simpa using not_le.mpr h50)]
    exact ⟨rfl, rfl, rfl⟩

theorem C6_witness :
    ValidResult sampleResult ∧
      ((80 ≤ raw_overall sampleResult →
        (calculate_cognitive_score sampleResult).risk_level = "Low Risk" ∧
          (calculate_cognitive_score sampleResult).risk_color = "🟢" ∧
          (calculate_cognitive_score sampleResult).risk_description =
            "Excellent cognitive health indicators") ∧
      (65 ≤ raw_overall sampleResult → raw_overall sampleResult < 80 →
        (calculate_cognitive_score sampleResult).risk_level = "Low-Moderate Risk" ∧
          (calculate_cognitive_score sampleResult).risk_color = "🟡" ∧
          (calculate_cognitive_score sampleResult).risk_description =
            "Good cognitive health with minor areas for attention") ∧
      (50 ≤ raw_overall sampleResult → raw_overall sampleResult < 65 →
        (calculate_cognitive_score sampleResult).risk_level = "Moderate Risk" ∧
          (calculate_cognitive_score sampleResult).risk_color = "🟠" ∧
          (calculate_cognitive_score sampleResult).risk_description =
            "Some cognitive health concerns detected") ∧
      (raw_overall sampleResult < 50 →
        (calculate_cognitive_score sampleResult).risk_level = "Higher Risk" ∧
          (calculate_cognitive_score sampleResult).risk_color = "🔴" ∧
          (calculate_cognitive_score sampleResult).risk_description =
            "Multiple cognitive health indicators suggest consultation recommended")) :=
  ⟨sampleResult_valid, C6_risk_rule sampleResult sampleResult_valid⟩

/-- C7 counterexample: at diversity_score = 240803/400005 the weighted
sum is 88.16 and the returned cognitive_age is round1(34.052) = 34.1,
whereas recomputing the age formula from the returned (rounded)
overall_score 88.2 gives round1(34.04) = 34.0. -/
theorem C7_counterexample :
    ValidResult resultC7 ∧
      (calculate_cognitive_score resultC7).cognitive_age ≠
        round1 (max 20
          (35 + (85 - (calculate_cognitive_score resultC7).overall_score) * 0.3)) := by
  constructor
  · unfold ValidResult resultC7
    norm_num
  · have hov : (calculate_cognitive_score resultC7).overall_score = 441/5 := by
      rw [calc_overall_eq, raw_overall_resultC7,
        round1_eq_of_gt (z := 881) (by norm_num) (by norm_num)]
      norm_num
    have hage : (calculate_cognitive_score resultC7).cognitive_age = 341/10 := by
      rw [calc_age_eq, raw_overall_resultC7]
      have hmax : max (20 : ℚ) (35 + (85 - 2204/25) * 0.3) = 8513/250 := by
        rw [max_eq_right (by norm_num)]
        norm_num
      rw [hmax, round1_eq_of_gt (z := 340) (by norm_num) (by norm_num)]
      norm_num
    rw [hov, hage]
    have hmax2 : max (20 : ℚ) (35 + (85 - 441/5) * 0.3) = 851/25 := by
      rw [max_eq_right (by norm_num)]
      norm_num
    rw [hmax2, round1_eq_of_lt (z := 340) (by norm_num) (by norm_num)]
    norm_num

/-- C7 (amended): cognitive_age equals round1(max(20, 35 + (85 − raw) ×
0.3)) where raw is the UNROUNDED weighted score, and is always ≥ 20. -/
theorem C7_age_formula (r : AnalysisResult) (h : ValidResult r) :
    (calculate_cognitive_score r).cognitive_age =
      round1 (max 20 (35 + (85 - raw_overall r) * 0.3)) ∧
    20 ≤ (calculate_cognitive_score r).cognitive_age := by
  refine ⟨calc_age_eq r, ?_⟩
  rw [calc_age_eq]
  have hmax : (20 : ℚ) ≤ max 20 (35 + (85 - raw_overall r) * 0.3) := le_max_left _ _
  have := le_round1_int (n := 20)
    (x := max 20 (35 + (85 - raw_overall r) * 0.3)) (by push_cast; linarith)
  push_cast at this
  linarith

theorem C7_witness :
    ValidResult sampleResult ∧
      ((calculate_cognitive_score sampleResult).cognitive_age =
        round1 (max 20 (35 + (85 - raw_overall sampleResult) * 0.3)) ∧
      20 ≤ (calculate_cognitive_score sampleResult).cognitive_age) :=
  ⟨sampleResult_valid, C7_age_formula sampleResult sampleResult_valid⟩

end Kina
